import Mathlib

/-!
Verification development for the spectral-inspection widget
(`hypercoast/ui.py`, class `SpectralWidget`).

The Python module is a UI composition layer: a widget attached to a host
map that reacts to click events, records reflectance spectra into a shared
dictionary on the host map, and exposes Reset / Save / Close buttons.

Shallow embedding conventions:
* Coordinates and reflectance values are rationals; the IEEE value NaN is
  modelled as `none` in `Option ℚ` (Python's comparison `v < 0` is false
  for NaN, which the masking function below reproduces).
* A dataset (`ds = host_map.cog_layer_dict[name].xds`) is modelled as an
  abstract nearest-neighbour selection function plus a wavelength array;
  `ds.sel(latitude, longitude, method="nearest").reflectance` becomes
  `Dataset.sel lat lon`.
* Attribute presence (Python `hasattr`) is modelled with `Option`:
  `none` means the attribute is absent from the host map.
* Faults (AttributeError, TypeError, KeyError, and ipyleaflet's exception
  on removing a control that is not on the map) are modelled by returning
  the state reached so far paired with `some err`; Python leaves the
  partial mutations in place when a callback raises, and so does the model.
* The `with self._output_widget:` context manager of an ipywidgets Output
  renders exceptions raised in its body into the output area and suppresses
  them (its exit handler returns True under IPython), so the click handler
  body faults are swallowed and the statements after the block still run;
  the model reproduces this.
-/

/-- A reflectance value: `none` models the floating point NaN. -/
abbrev RVal := Option ℚ

/-- Negative-value masking, `da[da < 0] = np.nan`: a NaN entry compares
false with 0 and is left as NaN; a negative rational becomes NaN. -/
def maskVal : RVal → RVal
  | none => none
  | some q => if q < 0 then none else some q

/-- The result of `ds.sel(latitude=lat, longitude=lon, method="nearest")
["reflectance"]`: the value array together with the values of its one
remaining dimension coordinate (`da.coords[da.dims[0]].values`). -/
structure DataArr where
  values : List RVal
  dimCoord : List ℚ
deriving DecidableEq, Repr

/-- A hyperspectral dataset registered on the host map: the
nearest-neighbour selection function and the `ds["wavelengths"].values`
array. -/
structure Dataset where
  sel : ℚ → ℚ → DataArr
  wavelengths : List ℚ

/-- A value stored in the host map's `_spectral_data` dictionary: either
the shared wavelength axis or one reflectance sample. -/
inductive SDVal
  | wl (ws : List ℚ)
  | refl (vs : List RVal)
deriving DecidableEq, Repr

/-- The `_spectral_data` dictionary: string keys, insertion ordered. -/
abbrev SD := List (String × SDVal)

/-- Python dict assignment `d[k] = v`: replace the value in place when the
key exists, otherwise append. -/
def SD.insert (k : String) (v : SDVal) : SD → SD
  | [] => [(k, v)]
  | (k', v') :: rest =>
      if k' = k then (k, v) :: rest else (k', v') :: SD.insert k v rest

/-- Python dict lookup `d[k]` / membership `k in d`. -/
def SD.lookup (k : String) : SD → Option SDVal
  | [] => none
  | (k', v) :: rest => if k' = k then some v else SD.lookup k rest

/-- Overlay controls attached to the host map.  Each press of Save creates
a fresh file-chooser control, distinguished by a counter. -/
inductive Control
  | output
  | spectral
  | fileChooser (id : ℕ)
deriving DecidableEq, Repr

/-- Faults that the Python code can raise. -/
inductive Err
  | attributeError
  | typeError
  | keyError
  | controlException
deriving DecidableEq, Repr

/-- Contents of the output panel (`self._output_widget`). -/
inductive OutContent
  | empty
  | plot (d : DataArr)
  | traceback (e : Err)
deriving DecidableEq, Repr

/-- Rounding a rational to the nearest integer, ties to even: the rounding
used by Python's fixed-point float formatting. -/
def roundHalfEven (q : ℚ) : ℤ :=
  if Int.fract q < 1 / 2 then ⌊q⌋
  else if 1 / 2 < Int.fract q then ⌊q⌋ + 1
  else if Even ⌊q⌋ then ⌊q⌋ else ⌊q⌋ + 1

/-- Left-pad a digit string with zeros to the given length. -/
def padZeros (n : ℕ) (s : String) : String :=
  if n ≤ s.length then s else String.mk (List.replicate (n - s.length) '0') ++ s

/-- Python's `f"\x7bq:.4f\x7d"` on the embedded rational coordinate: sign,
then the value rounded (half to even) to four decimal places.  A negative
value that rounds to zero keeps its minus sign, as Python prints it. -/
def format4f (q : ℚ) : String :=
  let sign := if q < 0 then "-" else ""
  let n : ℕ := (roundHalfEven (|q| * 10000)).toNat
  sign ++ toString (n / 10000) ++ "." ++ padZeros 4 (toString (n % 10000))

/-- The composite dictionary key `f"(\x7blat:.4f\x7d \x7blon:.4f\x7d)"`. -/
def fmtKey (lat lon : ℚ) : String :=
  "(" ++ format4f lat ++ " " ++ format4f lon ++ ")"

/-- The host map state, as seen and mutated by the widget. -/
structure HostMap where
  controls : List Control
  cogLayerDict : List (String × Dataset)
  plotMarkers : Option (List (ℚ × ℚ))
  plotMarkerCluster : Option (List (ℚ × ℚ))
  spectralData : Option SD
  fileChooser : Option ℕ
  fileChooserControl : Option Control
  cursor : String
  handlerSubscribed : Bool
  csvExports : List String
  nextChooserId : ℕ

/-- The widget state: the host map plus the widget's own fields. -/
structure WidgetState where
  hostMap : HostMap
  layersValue : Option String
  outputWidget : Option OutContent
  outputControl : Control
  spectralControl : Option Control
  spectralWidget : Bool
  onCloseSet : Bool
  onCloseCalls : ℕ

/-- `Map.remove_control`: removes the control when it is on the map and
raises otherwise. -/
def removeControl (c : Control) (h : HostMap) : HostMap × Option Err :=
  if c ∈ h.controls then ({ h with controls := h.controls.erase c }, none)
  else (h, some Err.controlException)

/-- Write the output panel contents (`clear_output`, a rendered plot, or a
rendered traceback); no effect when the output widget handle is `none`. -/
def setOutput (c : OutContent) (s : WidgetState) : WidgetState :=
  { s with outputWidget := s.outputWidget.map fun _ => c }

/-- `SpectralWidget.__init__`: registers the dropdown with the layer names
(current value the first name), adds the output control, creates the
`_spectral_data` dictionary when the host map lacks it, subscribes the
interaction handler, and adds the widget's own control. -/
def SpectralWidget.init (host : HostMap) : WidgetState :=
  let h1 := { host with controls := host.controls ++ [Control.output] }
  let h2 := if h1.spectralData = none then { h1 with spectralData := some [] } else h1
  let h3 := { h2 with
    handlerSubscribed := true
    controls := h2.controls ++ [Control.spectral] }
  { hostMap := h3
    layersValue := (host.cogLayerDict.map Prod.fst).head?
    outputWidget := some OutContent.empty
    outputControl := Control.output
    spectralControl := some Control.spectral
    spectralWidget := true
    onCloseSet := false
    onCloseCalls := 0 }

/-- The body of the `with self._output_widget:` block of
`handle_interaction` for a click: clear the output, lazily create
`_plot_markers`, read `_plot_marker_cluster` (AttributeError when absent),
append the marker, look the selected layer up in `cog_layer_dict`
(KeyError on a miss), store the wavelength axis on first use, store the
reflectance array under the formatted key, mask negatives in place (the
stored array aliases `da.values`, so the stored entry is the masked
array), and render the plot. -/
def clickBody (lat lon : ℚ) (s : WidgetState) : WidgetState × Option Err :=
  let s := setOutput OutContent.empty s
  let s := match s.hostMap.plotMarkers with
    | none => { s with hostMap := { s.hostMap with plotMarkers := some [] } }
    | some _ => s
  match s.hostMap.plotMarkerCluster with
  | none => (s, some Err.attributeError)
  | some _ =>
    let markers := (s.hostMap.plotMarkers.getD []) ++ [(lat, lon)]
    let s := { s with hostMap := { s.hostMap with
      plotMarkers := some markers
      plotMarkerCluster := some markers } }
    match s.layersValue.bind fun nm => s.hostMap.cogLayerDict.lookup nm with
    | none => (s, some Err.keyError)
    | some ds =>
      let da := ds.sel lat lon
      match s.hostMap.spectralData with
      | none => (s, some Err.attributeError)
      | some sd =>
        let sd1 := if (SD.lookup "wavelengths" sd).isNone
          then SD.insert "wavelengths" (SDVal.wl ds.wavelengths) sd else sd
        let sd2 := SD.insert (fmtKey lat lon) (SDVal.refl da.values) sd1
        let m : DataArr := { values := da.values.map maskVal, dimCoord := da.dimCoord }
        let sd3 := SD.insert (fmtKey lat lon) (SDVal.refl m.values) sd2
        let s := { s with hostMap := { s.hostMap with spectralData := some sd3 } }
        (setOutput (OutContent.plot m) s, none)

/-- `handle_interaction(**kwargs)`: indexes the coordinates payload before
any type check (TypeError when the payload is absent); for a click it
enters the output context (AttributeError when the output handle is gone),
runs the body with exceptions rendered as a traceback and suppressed, and
finally sets the crosshair cursor; any other event type is a no-op. -/
def handle_interaction (typ : String) (coords : Option (ℚ × ℚ))
    (s : WidgetState) : WidgetState × Option Err :=
  match coords with
  | none => (s, some Err.typeError)
  | some (lat, lon) =>
    if typ = "click" then
      match s.outputWidget with
      | none => (s, some Err.attributeError)
      | some _ =>
        let r := clickBody lat lon s
        let s2 := match r.2 with
          | none => r.1
          | some err => setOutput (OutContent.traceback err) r.1
        ({ s2 with hostMap := { s2.hostMap with cursor := "crosshair" } }, none)
    else (s, none)

/-- `reset_btn_click`: clears the marker cluster and marker list when the
cluster attribute exists, empties `_spectral_data` when it exists, and
clears the output panel. -/
def reset_btn_click (s : WidgetState) : WidgetState × Option Err :=
  let h := s.hostMap
  let h1 := match h.plotMarkerCluster with
    | some _ => { h with plotMarkerCluster := some [], plotMarkers := some [] }
    | none => h
  let h2 := match h1.spectralData with
    | some _ => { h1 with spectralData := some [] }
    | none => h1
  let s := { s with hostMap := h2 }
  match s.outputWidget with
  | none => (s, some Err.attributeError)
  | some _ => ({ s with outputWidget := some OutContent.empty }, none)

/-- `save_btn_click`: returns immediately when the host map lacks the
`_spectral_data` attribute (the guard is attribute presence, not
emptiness); otherwise clears the output panel, creates a fresh file
chooser, adds its control to the map, and stores both on the host map. -/
def save_btn_click (s : WidgetState) : WidgetState × Option Err :=
  match s.hostMap.spectralData with
  | none => (s, none)
  | some _ =>
    match s.outputWidget with
    | none => (s, some Err.attributeError)
    | some _ =>
      let s := { s with outputWidget := some OutContent.empty }
      let cid := s.hostMap.nextChooserId
      let c := Control.fileChooser cid
      ({ s with hostMap := { s.hostMap with
          controls := s.hostMap.controls ++ [c]
          fileChooser := some cid
          fileChooserControl := some c
          nextChooserId := cid + 1 } }, none)

/-- `chooser_callback`: does nothing when no path was selected; otherwise
delegates the CSV export to the host map (`spectral_to_csv`, recorded as
an export event since the method body lives outside this module) and, when
`_file_chooser_control` exists and is on the map, removes it and closes
the chooser widget (AttributeError when `_file_chooser` is absent). -/
def chooser_callback (sel : Option String) (s : WidgetState) :
    WidgetState × Option Err :=
  match sel with
  | none => (s, none)
  | some path =>
    let h := { s.hostMap with csvExports := s.hostMap.csvExports ++ [path] }
    match h.fileChooserControl with
    | some c =>
      if c ∈ h.controls then
        let h := { h with controls := h.controls.erase c }
        match h.fileChooser with
        | none => ({ s with hostMap := h }, some Err.attributeError)
        | some _ => ({ s with hostMap := h }, none)
      else ({ s with hostMap := h }, none)
    | none => ({ s with hostMap := h }, none)

/-- First statements of `cleanup`: reset the cursor and unsubscribe the
interaction handler (the ipywidgets callback dispatcher ignores removal of
a handler that is not registered, so this never raises). -/
def cleanup_unsub (s : WidgetState) : WidgetState :=
  { s with hostMap := { s.hostMap with cursor := "default", handlerSubscribed := false } }

/-- `cleanup`, output-control block, first half: `self._output_control` is
assigned once in `__init__` and never cleared, and a widget control object
is truthy, so the guard always passes and `remove_control` runs. -/
def cleanup_removeOutput (s : WidgetState) : WidgetState × Option Err :=
  let r := removeControl s.outputControl s.hostMap
  ({ s with hostMap := r.1 }, r.2)

/-- `cleanup`, output-control block, second half: when the output widget
handle is still set, close it and clear the handle. -/
def cleanup_closeOutputWidget (s : WidgetState) : WidgetState :=
  match s.outputWidget with
  | some _ => { s with outputWidget := none }
  | none => s

/-- `cleanup`, spectral-control block: when `self._spectral_control` is
set, remove it from the map (raising when it is not there), clear the
handle, and close and clear the widget handle. -/
def cleanup_spectralControlPhase (s : WidgetState) : WidgetState × Option Err :=
  match s.spectralControl with
  | none => (s, none)
  | some c =>
    let r := removeControl c s.hostMap
    let s := { s with hostMap := r.1 }
    match r.2 with
    | some err => (s, some err)
    | none =>
      let s := { s with spectralControl := none }
      (if s.spectralWidget then { s with spectralWidget := false } else s, none)

/-- `cleanup`, marker block: guarded by `hasattr` on the cluster. -/
def cleanup_markersPhase (s : WidgetState) : WidgetState :=
  match s.hostMap.plotMarkerCluster with
  | some _ => { s with hostMap := { s.hostMap with
      plotMarkerCluster := some [], plotMarkers := some [] } }
  | none => s

/-- `cleanup`, spectral-data block: guarded by `hasattr`. -/
def cleanup_spectralDataPhase (s : WidgetState) : WidgetState :=
  match s.hostMap.spectralData with
  | some _ => { s with hostMap := { s.hostMap with spectralData := some [] } }
  | none => s

/-- `cleanup`, final clear: runs only when the output widget handle is
still set (the output block above always clears it, so after a completed
output block this is a no-op). -/
def cleanup_finalClear (s : WidgetState) : WidgetState :=
  match s.outputWidget with
  | some _ => { s with outputWidget := some OutContent.empty }
  | none => s

/-- Last statement of `cleanup`: call `self.on_close` when it is set. -/
def cleanup_onClose (s : WidgetState) : WidgetState :=
  if s.onCloseSet then { s with onCloseCalls := s.onCloseCalls + 1 } else s

/-- Sequencing with fault propagation: a raised exception aborts the rest
of the method, leaving the mutations made so far in place. -/
def andThen (r : WidgetState × Option Err)
    (f : WidgetState → WidgetState × Option Err) : WidgetState × Option Err :=
  match r with
  | (s, some e) => (s, some e)
  | (s, none) => f s

/-- `cleanup`: the phases above in source order; `self._host_map` is never
cleared so its truthiness guard always passes, and `on_close` runs only
when no earlier statement raised. -/
def cleanup (s : WidgetState) : WidgetState × Option Err :=
  andThen (andThen (cleanup_removeOutput (cleanup_unsub s)) fun s =>
      cleanup_spectralControlPhase (cleanup_closeOutputWidget s)) fun s =>
    (cleanup_onClose (cleanup_finalClear
      (cleanup_spectralDataPhase (cleanup_markersPhase s))), none)

/-- Events the widget can receive. -/
inductive Event
  | interaction (typ : String) (coords : Option (ℚ × ℚ))
  | reset
  | save
  | chooser (selected : Option String)
  | close
  | selectLayer (name : String)

/-- One event dispatch.  Interaction events reach the handler only while
it is subscribed on the host map; the chooser callback only exists while a
chooser does; the dropdown only accepts names among its options. -/
def step (s : WidgetState) (e : Event) : WidgetState × Option Err :=
  match e with
  | Event.interaction typ coords =>
      if s.hostMap.handlerSubscribed then handle_interaction typ coords s
      else (s, none)
  | Event.reset => reset_btn_click s
  | Event.save => save_btn_click s
  | Event.chooser sel =>
      match s.hostMap.fileChooser with
      | none => (s, none)
      | some _ => chooser_callback sel s
  | Event.close => cleanup s
  | Event.selectLayer nm =>
      if nm ∈ s.hostMap.cogLayerDict.map Prod.fst
      then ({ s with layersValue := some nm }, none) else (s, none)

/-- States reachable from a freshly constructed widget, stepping through
every event outcome (a raised exception leaves the notebook session alive
with the partial mutations in place). -/
inductive Reachable : WidgetState → Prop
  | init (h : HostMap) : Reachable (SpectralWidget.init h)
  | step (s : WidgetState) (e : Event) : Reachable s → Reachable (step s e).1

/-- The `"wavelengths"` entry of the shared spectral mapping, when both
the attribute and the entry exist. -/
def wavelengthsOf (s : WidgetState) : Option SDVal :=
  s.hostMap.spectralData.bind (SD.lookup "wavelengths")

/-- Dispatch a sequence of click events. -/
def runClicks : WidgetState → List (ℚ × ℚ) → WidgetState
  | s, [] => s
  | s, p :: ps => runClicks (step s (Event.interaction "click" (some p))).1 ps

/-- A concrete dataset, used to instantiate theorems at witnesses. -/
def ds0 : Dataset where
  sel := fun _ _ => { values := [some 2, some (-3), none], dimCoord := [400, 500, 600] }
  wavelengths := [400, 500, 600]

/-- A concrete host map state prior to widget construction. -/
def host0 : HostMap where
  controls := []
  cogLayerDict := [("L", ds0)]
  plotMarkers := none
  plotMarkerCluster := some []
  spectralData := none
  fileChooser := none
  fileChooserControl := none
  cursor := "default"
  handlerSubscribed := false
  csvExports := []
  nextChooserId := 0

/-- The widget state right after construction on `host0`. -/
def s0 : WidgetState := SpectralWidget.init host0

/-- A widget state whose host map lacks the spectral-data attribute. -/
def sNoSD : WidgetState :=
  { s0 with hostMap := { s0.hostMap with spectralData := none } }

/-- The widget state after a completed Close on `s0`. -/
def sClosed : WidgetState := (cleanup s0).1

/-- A widget state whose spectral mapping already has a wavelengths entry. -/
def sW : WidgetState :=
  { s0 with hostMap := { s0.hostMap with
      spectralData := some [("wavelengths", SDVal.wl [400, 500, 600])] } }

/-- Dictionary assignment stores the value under the assigned key. -/
theorem SD.lookup_insert (k : String) (v : SDVal) (l : SD) :
    SD.lookup k (SD.insert k v l) = some v := by
  induction l with
  | nil => simp [SD.insert, SD.lookup]
  | cons hd tl ih =>
    obtain ⟨k', v'⟩ := hd
    by_cases h : k' = k <;> simp [SD.insert, SD.lookup, h, ih]

/-- Dictionary assignment leaves the other keys unchanged. -/
theorem SD.lookup_insert_ne (k k' : String) (v : SDVal) (l : SD) (h : k' ≠ k) :
    SD.lookup k (SD.insert k' v l) = SD.lookup k l := by
  induction l with
  | nil => simp [SD.insert, SD.lookup, h]
  | cons hd tl ih =>
    obtain ⟨k₀, v₀⟩ := hd
    by_cases h0 : k₀ = k'
    · subst h0; simp [SD.insert, SD.lookup, h]
    · by_cases h1 : k₀ = k
      · subst h1
        simp only [SD.insert, if_neg h0]
        simp [SD.lookup, ih]
      · simp [SD.insert, SD.lookup, h0, h1, ih]

/-- Appending strings concatenates their character data. -/
theorem String.data_app (a b : String) : (a ++ b).data = a.data ++ b.data := by
  cases a; cases b; rfl

/-- A formatted coordinate key starts with an opening parenthesis, so it
never collides with the reserved `"wavelengths"` dictionary key. -/
theorem fmtKey_ne_wavelengths (lat lon : ℚ) : fmtKey lat lon ≠ "wavelengths" := by
  intro h
  have h2 := congrArg String.data h
  rw [fmtKey] at h2
  rw [String.data_app, String.data_app, String.data_app, String.data_app] at h2
  have h3 : ("(" : String).data = ['('] := rfl
  rw [h3] at h2
  have h4 : ("wavelengths" : String).data = 'w' :: "avelengths".data := rfl
  rw [h4] at h2
  simp at h2

/-- Claim C10: the interaction handler indexes the coordinates payload
before checking the event type, so any event without coordinates faults
with a TypeError, and any event with coordinates whose type is not
"click" changes nothing. -/
theorem interaction_derefs_coords_before_type_check :
    (∀ typ s, handle_interaction typ none s = (s, some Err.typeError)) ∧
    (∀ typ lat lon s, typ ≠ "click" →
      handle_interaction typ (some (lat, lon)) s = (s, none)) := by
  constructor
  · intro typ s; rfl
  · intro typ lat lon s h
    simp [handle_interaction, h]

/-- Claim C10 witness: a mousemove event without coordinates faults, and
one with coordinates leaves the state unchanged. -/
theorem interaction_derefs_coords_before_type_check_w :
    handle_interaction "mousemove" none s0 = (s0, some Err.typeError) ∧
    handle_interaction "mousemove" (some (1, 2)) s0 = (s0, none) :=
  ⟨interaction_derefs_coords_before_type_check.1 "mousemove" s0,
   interaction_derefs_coords_before_type_check.2 "mousemove" 1 2 s0 (by decide)⟩

/-- Claim C2 counterexample: in the state reached right after widget
construction the spectral mapping exists and is empty, yet pressing Save
is not a no-op: it creates a file-chooser control and adds it to the host
map, because the code only checks attribute presence, not emptiness. -/
theorem save_with_empty_mapping_opens_chooser :
    s0.hostMap.spectralData = some [] ∧
    (save_btn_click s0).2 = none ∧
    Control.fileChooser 0 ∈ (save_btn_click s0).1.hostMap.controls ∧
    Control.fileChooser 0 ∉ s0.hostMap.controls := by
  refine ⟨rfl, rfl, ?_, ?_⟩ <;> decide

/-- Claim C2 amended: pressing Save is a no-op exactly when the host map
lacks the `_spectral_data` attribute; whenever the attribute exists, even
as an empty mapping, Save clears the output panel and creates and adds a
file-chooser control. -/
theorem save_noop_iff_spectral_attr_absent (s : WidgetState) :
    (s.hostMap.spectralData = none → save_btn_click s = (s, none)) ∧
    (∀ sd w, s.hostMap.spectralData = some sd → s.outputWidget = some w →
      (save_btn_click s).2 = none ∧
      (save_btn_click s).1.hostMap.controls
        = s.hostMap.controls ++ [Control.fileChooser s.hostMap.nextChooserId] ∧
      (save_btn_click s).1.hostMap.fileChooserControl
        = some (Control.fileChooser s.hostMap.nextChooserId) ∧
      (save_btn_click s).1.outputWidget = some OutContent.empty) := by
  constructor
  · intro h; simp [save_btn_click, h]
  · intro sd w hsd hw
    refine ⟨?_, ?_, ?_, ?_⟩ <;> simp [save_btn_click, hsd, hw]

/-- Claim C2 amended, witness: Save on the constructed state (attribute
present, mapping empty) opens the chooser; Save on a state without the
attribute returns the state unchanged. -/
theorem save_noop_iff_spectral_attr_absent_w :
    save_btn_click sNoSD = (sNoSD, none) ∧
    (save_btn_click s0).1.hostMap.controls
      = s0.hostMap.controls ++ [Control.fileChooser s0.hostMap.nextChooserId] :=
  ⟨(save_noop_iff_spectral_attr_absent sNoSD).1 rfl,
   ((save_noop_iff_spectral_attr_absent s0).2 [] OutContent.empty rfl rfl).2.1⟩

/-- Claim C8: a file-chooser callback with no selection changes nothing;
a callback with a selected path records the CSV export delegation and
removes the chooser control from the host map. -/
theorem chooser_callback_select_or_cancel (s : WidgetState) :
    (chooser_callback none s = (s, none)) ∧
    (∀ path c fcid, s.hostMap.fileChooserControl = some c →
      c ∈ s.hostMap.controls → s.hostMap.fileChooser = some fcid →
      s.hostMap.controls.Nodup →
      (chooser_callback (some path) s).2 = none ∧
      (chooser_callback (some path) s).1.hostMap.csvExports
        = s.hostMap.csvExports ++ [path] ∧
      c ∉ (chooser_callback (some path) s).1.hostMap.controls) := by
  constructor
  · rfl
  · intro path c fcid hfc hmem hfid hnd
    refine ⟨?_, ?_, ?_⟩ <;>
      simp [chooser_callback, hfc, hmem, hfid, hnd.not_mem_erase]

/-- Claim C1: a click event at a point, with a selected layer whose
dataset is registered, ends with the spectral mapping containing the
formatted coordinate key bound to the nearest-neighbour reflectance array
with every negative entry replaced by the missing value.  (In the source
the mask is applied after the store, but the stored array aliases the
selection's buffer, so the stored entry is the masked array.) -/
theorem click_stores_masked_nearest_spectrum
    (s : WidgetState) (lat lon : ℚ) (w : OutContent) (mks : List (ℚ × ℚ))
    (sd : SD) (nm : String) (ds : Dataset)
    (hw : s.outputWidget = some w)
    (hc : s.hostMap.plotMarkerCluster = some mks)
    (hsd : s.hostMap.spectralData = some sd)
    (hnm : s.layersValue = some nm)
    (hds : s.hostMap.cogLayerDict.lookup nm = some ds) :
    (handle_interaction "click" (some (lat, lon)) s).2 = none ∧
    ∃ sd', (handle_interaction "click" (some (lat, lon)) s).1.hostMap.spectralData
        = some sd' ∧
      SD.lookup (fmtKey lat lon) sd'
        = some (SDVal.refl ((ds.sel lat lon).values.map maskVal)) := by
  cases hpm : s.hostMap.plotMarkers <;>
    simp [handle_interaction, clickBody, setOutput, hw, hc, hsd, hnm, hds, hpm,
      SD.lookup_insert]

/-- Claim C1 witness: a click at latitude 1, longitude 2 on the concrete
constructed widget records the masked reflectance array of `ds0`. -/
theorem click_stores_masked_nearest_spectrum_w :
    (handle_interaction "click" (some (1, 2)) s0).2 = none ∧
    ∃ sd', (handle_interaction "click" (some (1, 2)) s0).1.hostMap.spectralData
        = some sd' ∧
      SD.lookup (fmtKey 1 2) sd'
        = some (SDVal.refl ((ds0.sel 1 2).values.map maskVal)) :=
  click_stores_masked_nearest_spectrum s0 1 2 OutContent.empty [] [] "L" ds0
    rfl rfl rfl rfl rfl

/-- A click-handler body never changes an existing wavelengths entry: the
write is guarded by a membership test, and the coordinate key written
afterwards can never equal `"wavelengths"`. -/
theorem clickBody_wavelengths (lat lon : ℚ) (s : WidgetState) (v : SDVal)
    (h : wavelengthsOf s = some v) :
    wavelengthsOf (clickBody lat lon s).1 = some v := by
  obtain ⟨sd, hsd, hl⟩ : ∃ sd, s.hostMap.spectralData = some sd ∧
      SD.lookup "wavelengths" sd = some v := by
    cases hsd : s.hostMap.spectralData with
    | none => simp [wavelengthsOf, hsd] at h
    | some sd => exact ⟨sd, rfl, by simpa [wavelengthsOf, hsd] using h⟩
  cases hpm : s.hostMap.plotMarkers <;>
  cases hc : s.hostMap.plotMarkerCluster <;>
  cases hlv : s.layersValue.bind (fun nm => s.hostMap.cogLayerDict.lookup nm) <;>
    simp [clickBody, setOutput, wavelengthsOf, hpm, hc, hsd, hl, hlv,
      SD.lookup_insert_ne _ _ _ _ (fmtKey_ne_wavelengths lat lon)]

/-- Any dispatched interaction event preserves an existing wavelengths
entry of the spectral mapping. -/
theorem wavelengths_stable_interaction (s : WidgetState) (typ : String)
    (coords : Option (ℚ × ℚ)) (v : SDVal) (h : wavelengthsOf s = some v) :
    wavelengthsOf (step s (Event.interaction typ coords)).1 = some v := by
  by_cases hsub : s.hostMap.handlerSubscribed
  · cases coords with
    | none => simp [step, hsub, handle_interaction, h]
    | some p =>
      obtain ⟨lat, lon⟩ := p
      by_cases ht : typ = "click"
      · subst ht
        cases hw : s.outputWidget with
        | none => simp [step, hsub, handle_interaction, hw, h]
        | some w =>
          have hcb := clickBody_wavelengths lat lon s v h
          rcases hb : clickBody lat lon s with ⟨s1, e1⟩
          rw [hb] at hcb
          cases e1 <;>
            simp_all [step, hsub, handle_interaction, hw, hb, setOutput, wavelengthsOf]
      · simp [step, hsub, handle_interaction, ht, h]
  · simp [step, hsub, h]

/-- Claim C4: across any sequence of click events, an existing wavelengths
entry is never rewritten, and the first successful click of a state whose
mapping lacks the entry writes the selected dataset's wavelength array. -/
theorem wavelengths_entry_written_once (s : WidgetState) :
    (∀ ps v, wavelengthsOf s = some v → wavelengthsOf (runClicks s ps) = some v) ∧
    (∀ lat lon oc mks sd nm ds, s.hostMap.handlerSubscribed = true →
      s.outputWidget = some oc → s.hostMap.plotMarkerCluster = some mks →
      s.hostMap.spectralData = some sd → s.layersValue = some nm →
      s.hostMap.cogLayerDict.lookup nm = some ds →
      SD.lookup "wavelengths" sd = none →
      wavelengthsOf (step s (Event.interaction "click" (some (lat, lon)))).1
        = some (SDVal.wl ds.wavelengths)) := by
  constructor
  · intro ps
    induction ps generalizing s with
    | nil => intro v h; simpa [runClicks] using h
    | cons p ps ih =>
      intro v h
      exact ih _ _ (wavelengths_stable_interaction s "click" (some p) v h)
  · intro lat lon oc mks sd nm ds hsub hw hc hsd hnm hds hnone
    cases hpm : s.hostMap.plotMarkers <;>
      simp [step, hsub, handle_interaction, clickBody, setOutput, wavelengthsOf,
        hw, hc, hsd, hnm, hds, hnone, hpm, SD.lookup_insert,
        SD.lookup_insert_ne _ _ _ _ (fmtKey_ne_wavelengths lat lon)]

/-- Claim C4 witness: two clicks on a state with a wavelengths entry keep
it intact, and a first click on the freshly constructed widget writes the
dataset's wavelength array. -/
theorem wavelengths_entry_written_once_w :
    wavelengthsOf (runClicks sW [(1, 2), (3, 4)]) = some (SDVal.wl [400, 500, 600]) ∧
    wavelengthsOf (step s0 (Event.interaction "click" (some (1, 2)))).1
      = some (SDVal.wl ds0.wavelengths) :=
  ⟨(wavelengths_entry_written_once sW).1 [(1, 2), (3, 4)] _ rfl,
   (wavelengths_entry_written_once s0).2 1 2 OutContent.empty [] [] "L" ds0
     rfl rfl rfl rfl rfl rfl rfl⟩

/-- Claim C5: Reset leaves the spectral mapping empty (whenever the
attribute exists, as construction guarantees), leaves markers and cluster
empty or absent, clears the output panel, and raises no error whichever
optional host-map attributes are present. -/
theorem reset_clears_samples_markers_output (s : WidgetState) (oc : OutContent)
    (hw : s.outputWidget = some oc)
    (hcoh : s.hostMap.plotMarkerCluster = none →
      s.hostMap.plotMarkers = none ∨ s.hostMap.plotMarkers = some []) :
    (reset_btn_click s).2 = none ∧
    ((reset_btn_click s).1.hostMap.spectralData = some [] ∨
      (reset_btn_click s).1.hostMap.spectralData = none) ∧
    (s.hostMap.spectralData.isSome →
      (reset_btn_click s).1.hostMap.spectralData = some []) ∧
    ((reset_btn_click s).1.hostMap.plotMarkerCluster = none ∨
      (reset_btn_click s).1.hostMap.plotMarkerCluster = some []) ∧
    ((reset_btn_click s).1.hostMap.plotMarkers = none ∨
      (reset_btn_click s).1.hostMap.plotMarkers = some []) ∧
    (reset_btn_click s).1.outputWidget = some OutContent.empty := by
  cases hc : s.hostMap.plotMarkerCluster <;>
  cases hsd : s.hostMap.spectralData <;>
    simp_all [reset_btn_click, hw, hc, hsd]

/-- Claim C5 witness: Reset on a concrete widget state with samples
empties the mapping, the markers, and the output panel without error. -/
theorem reset_clears_samples_markers_output_w :
    (reset_btn_click sW).2 = none ∧
    ((reset_btn_click sW).1.hostMap.spectralData = some [] ∨
      (reset_btn_click sW).1.hostMap.spectralData = none) ∧
    (sW.hostMap.spectralData.isSome →
      (reset_btn_click sW).1.hostMap.spectralData = some []) ∧
    ((reset_btn_click sW).1.hostMap.plotMarkerCluster = none ∨
      (reset_btn_click sW).1.hostMap.plotMarkerCluster = some []) ∧
    ((reset_btn_click sW).1.hostMap.plotMarkers = none ∨
      (reset_btn_click sW).1.hostMap.plotMarkers = some []) ∧
    (reset_btn_click sW).1.outputWidget = some OutContent.empty :=
  reset_clears_samples_markers_output sW OutContent.empty rfl
    (by intro h; exact absurd h (by decide))

/-- Removing a control changes neither the subscription flag nor the
spectral mapping of the host map. -/
theorem removeControl_pres (c : Control) (h : HostMap) :
    (removeControl c h).1.handlerSubscribed = h.handlerSubscribed ∧
    (removeControl c h).1.spectralData = h.spectralData := by
  unfold removeControl; split <;> simp

/-- The output-control removal phase of cleanup preserves subscription
and spectral mapping. -/
theorem cleanup_removeOutput_pres (s : WidgetState) :
    (cleanup_removeOutput s).1.hostMap.handlerSubscribed
      = s.hostMap.handlerSubscribed ∧
    (cleanup_removeOutput s).1.hostMap.spectralData
      = s.hostMap.spectralData := by
  unfold cleanup_removeOutput
  exact ⟨(removeControl_pres _ _).1, (removeControl_pres _ _).2⟩

/-- Closing the output widget does not touch the host map. -/
theorem cleanup_closeOutputWidget_pres (s : WidgetState) :
    (cleanup_closeOutputWidget s).hostMap = s.hostMap := by
  unfold cleanup_closeOutputWidget; split <;> rfl

/-- The spectral-control phase of cleanup preserves subscription and
spectral mapping. -/
theorem cleanup_spectralControlPhase_pres (s : WidgetState) :
    (cleanup_spectralControlPhase s).1.hostMap.handlerSubscribed
      = s.hostMap.handlerSubscribed ∧
    (cleanup_spectralControlPhase s).1.hostMap.spectralData
      = s.hostMap.spectralData := by
  unfold cleanup_spectralControlPhase
  cases hsc : s.spectralControl with
  | none => simp
  | some c =>
    rcases hrc : removeControl c s.hostMap with ⟨h1, e1⟩
    have hp := removeControl_pres c s.hostMap
    rw [hrc] at hp
    cases e1 with
    | some err => simpa [hrc] using hp
    | none =>
      simp only [hrc]
      split <;> simpa using hp

/-- The marker-clearing phase of cleanup preserves subscription and
spectral mapping. -/
theorem cleanup_markersPhase_pres (s : WidgetState) :
    (cleanup_markersPhase s).hostMap.handlerSubscribed
      = s.hostMap.handlerSubscribed ∧
    (cleanup_markersPhase s).hostMap.spectralData
      = s.hostMap.spectralData := by
  unfold cleanup_markersPhase; split <;> simp

/-- The spectral-data phase of cleanup preserves subscription and either
keeps the mapping or empties it. -/
theorem cleanup_spectralDataPhase_pres (s : WidgetState) :
    (cleanup_spectralDataPhase s).hostMap.handlerSubscribed
      = s.hostMap.handlerSubscribed ∧
    ((cleanup_spectralDataPhase s).hostMap.spectralData
        = s.hostMap.spectralData ∨
      (cleanup_spectralDataPhase s).hostMap.spectralData = some []) := by
  unfold cleanup_spectralDataPhase; split <;> simp

/-- The final output clearing does not touch the host map. -/
theorem cleanup_finalClear_pres (s : WidgetState) :
    (cleanup_finalClear s).hostMap = s.hostMap := by
  unfold cleanup_finalClear; split <;> rfl

/-- The completion callback does not touch the host map. -/
theorem cleanup_onClose_pres (s : WidgetState) :
    (cleanup_onClose s).hostMap = s.hostMap := by
  unfold cleanup_onClose; split <;> rfl

/-- Cleanup always unsubscribes the handler and either keeps or empties
the spectral mapping, whether or not a phase raises. -/
theorem cleanup_sub_sd (s : WidgetState) :
    (cleanup s).1.hostMap.handlerSubscribed = false ∧
    ((cleanup s).1.hostMap.spectralData = s.hostMap.spectralData ∨
      (cleanup s).1.hostMap.spectralData = some []) := by
  unfold cleanup
  rcases h1 : cleanup_removeOutput (cleanup_unsub s) with ⟨u1, e1⟩
  have hp1 := cleanup_removeOutput_pres (cleanup_unsub s)
  rw [h1] at hp1
  have hu0s : (cleanup_unsub s).hostMap.handlerSubscribed = false := rfl
  have hu0d : (cleanup_unsub s).hostMap.spectralData = s.hostMap.spectralData := rfl
  cases e1 with
  | some err =>
    simp only [andThen]
    exact ⟨by rw [hp1.1, hu0s], Or.inl (by rw [hp1.2, hu0d])⟩
  | none =>
    simp only [andThen]
    rcases h2 : cleanup_spectralControlPhase (cleanup_closeOutputWidget u1)
      with ⟨u2, e2⟩
    have hp2 := cleanup_spectralControlPhase_pres (cleanup_closeOutputWidget u1)
    rw [h2] at hp2
    have hcw := cleanup_closeOutputWidget_pres u1
    cases e2 with
    | some err =>
      refine ⟨?_, Or.inl ?_⟩
      · rw [hp2.1, hcw, hp1.1, hu0s]
      · rw [hp2.2, hcw, hp1.2, hu0d]
    | none =>
      have hoc := cleanup_onClose_pres (cleanup_finalClear
        (cleanup_spectralDataPhase (cleanup_markersPhase u2)))
      have hfc := cleanup_finalClear_pres
        (cleanup_spectralDataPhase (cleanup_markersPhase u2))
      have hsp := cleanup_spectralDataPhase_pres (cleanup_markersPhase u2)
      have hmp := cleanup_markersPhase_pres u2
      refine ⟨?_, ?_⟩
      · rw [hoc, hfc, hsp.1, hmp.1, hp2.1, hcw, hp1.1, hu0s]
      · rcases hsp.2 with hh | hh
        · exact Or.inl (by rw [hoc, hfc, hh, hmp.2, hp2.2, hcw, hp1.2, hu0d])
        · exact Or.inr (by rw [hoc, hfc, hh])

/-- The click-handler body changes neither the subscription flag nor the
presence of the spectral mapping. -/
theorem clickBody_pres (lat lon : ℚ) (s : WidgetState) :
    (clickBody lat lon s).1.hostMap.handlerSubscribed
      = s.hostMap.handlerSubscribed ∧
    ((clickBody lat lon s).1.hostMap.spectralData = s.hostMap.spectralData ∨
      ∃ sd, (clickBody lat lon s).1.hostMap.spectralData = some sd) := by
  cases hpm : s.hostMap.plotMarkers <;>
  cases hc : s.hostMap.plotMarkerCluster <;>
  cases hlv : s.layersValue.bind (fun nm => s.hostMap.cogLayerDict.lookup nm) <;>
  cases hsd : s.hostMap.spectralData <;>
    simp [clickBody, setOutput, hpm, hc, hlv, hsd]

/-- The interaction handler changes neither the subscription flag nor the
presence of the spectral mapping. -/
theorem handle_interaction_pres (typ : String) (coords : Option (ℚ × ℚ))
    (s : WidgetState) :
    (handle_interaction typ coords s).1.hostMap.handlerSubscribed
      = s.hostMap.handlerSubscribed ∧
    ((handle_interaction typ coords s).1.hostMap.spectralData
        = s.hostMap.spectralData ∨
      ∃ sd, (handle_interaction typ coords s).1.hostMap.spectralData
        = some sd) := by
  cases coords with
  | none => exact ⟨rfl, Or.inl rfl⟩
  | some p =>
    obtain ⟨lat, lon⟩ := p
    by_cases ht : typ = "click"
    · subst ht
      cases hw : s.outputWidget with
      | none => simp [handle_interaction, hw]
      | some w =>
        have hcb := clickBody_pres lat lon s
        rcases hb : clickBody lat lon s with ⟨s1, e1⟩
        rw [hb] at hcb
        cases e1 <;>
          simp_all [handle_interaction, hw, hb, setOutput]
    · simp [handle_interaction, ht]

/-- Reset preserves subscription and keeps or empties the mapping. -/
theorem reset_pres (s : WidgetState) :
    (reset_btn_click s).1.hostMap.handlerSubscribed
      = s.hostMap.handlerSubscribed ∧
    ((reset_btn_click s).1.hostMap.spectralData = s.hostMap.spectralData ∨
      (reset_btn_click s).1.hostMap.spectralData = some []) := by
  cases hc : s.hostMap.plotMarkerCluster <;>
  cases hsd : s.hostMap.spectralData <;>
  cases hw : s.outputWidget <;>
    simp [reset_btn_click, hc, hsd, hw]

/-- Save preserves subscription and the spectral mapping. -/
theorem save_pres (s : WidgetState) :
    (save_btn_click s).1.hostMap.handlerSubscribed
      = s.hostMap.handlerSubscribed ∧
    (save_btn_click s).1.hostMap.spectralData = s.hostMap.spectralData := by
  cases hsd : s.hostMap.spectralData <;>
  cases hw : s.outputWidget <;>
    simp [save_btn_click, hsd, hw]

/-- The chooser callback preserves subscription and the spectral mapping. -/
theorem chooser_pres (sel : Option String) (s : WidgetState) :
    (chooser_callback sel s).1.hostMap.handlerSubscribed
      = s.hostMap.handlerSubscribed ∧
    (chooser_callback sel s).1.hostMap.spectralData
      = s.hostMap.spectralData := by
  cases sel with
  | none => exact ⟨rfl, rfl⟩
  | some path =>
    cases hfc : s.hostMap.fileChooserControl with
    | none => simp [chooser_callback, hfc]
    | some c =>
      by_cases hmem : c ∈ s.hostMap.controls
      · cases hf : s.hostMap.fileChooser <;>
          simp [chooser_callback, hfc, hmem, hf]
      · simp [chooser_callback, hfc, hmem]

/-- Claim C6: the widget is a two-state machine over the subscription
flag: construction starts it subscribed, a closed widget stays closed
under every event, the only event that unsubscribes is Close, Close does
unsubscribe, and an interaction dispatched to a closed widget returns the
state unchanged with no fault, so it neither updates the panel nor
mutates the spectral mapping. -/
theorem widget_two_state_machine :
    (∀ h, (SpectralWidget.init h).hostMap.handlerSubscribed = true) ∧
    (∀ s e, s.hostMap.handlerSubscribed = false →
      (step s e).1.hostMap.handlerSubscribed = false) ∧
    (∀ s e, s.hostMap.handlerSubscribed = true →
      (step s e).1.hostMap.handlerSubscribed = false → e = Event.close) ∧
    (∀ s, (step s Event.close).1.hostMap.handlerSubscribed = false) ∧
    (∀ s typ coords, s.hostMap.handlerSubscribed = false →
      step s (Event.interaction typ coords) = (s, none)) := by
  refine ⟨fun h => rfl, ?_, ?_, ?_, ?_⟩
  · intro s e h
    cases e with
    | interaction typ coords => simp [step, h]
    | reset => simp [step, (reset_pres s).1, h]
    | save => simp [step, (save_pres s).1, h]
    | chooser sel =>
      cases hf : s.hostMap.fileChooser with
      | none => simp [step, hf, h]
      | some fid => simp [step, hf, (chooser_pres sel s).1, h]
    | close => simp [step, (cleanup_sub_sd s).1]
    | selectLayer nm =>
      by_cases hin : nm ∈ s.hostMap.cogLayerDict.map Prod.fst <;>
        simp [step, hin, h]
  · intro s e h1 h2
    cases e with
    | interaction typ coords =>
      rw [step, if_pos h1, (handle_interaction_pres typ coords s).1] at h2
      exact absurd h2 (by simp [h1])
    | reset =>
      rw [step, (reset_pres s).1] at h2
      exact absurd h2 (by simp [h1])
    | save =>
      rw [step, (save_pres s).1] at h2
      exact absurd h2 (by simp [h1])
    | chooser sel =>
      cases hf : s.hostMap.fileChooser with
      | none => rw [step] at h2; simp [hf, h1] at h2
      | some fid =>
        rw [step] at h2
        simp only [hf] at h2
        rw [(chooser_pres sel s).1] at h2
        exact absurd h2 (by simp [h1])
    | close => rfl
    | selectLayer nm =>
      rw [step] at h2
      by_cases hin : nm ∈ s.hostMap.cogLayerDict.map Prod.fst <;>
        simp [hin, h1] at h2
  · intro s
    simpa [step] using (cleanup_sub_sd s).1
  · intro s typ coords h
    simp [step, h]

/-- Claim C6 witness: the freshly built widget is subscribed, the closed
widget stays closed under Reset and a click is a strict no-op on it, and
Close on the fresh widget unsubscribes. -/
theorem widget_two_state_machine_w :
    (SpectralWidget.init host0).hostMap.handlerSubscribed = true ∧
    (step sClosed Event.reset).1.hostMap.handlerSubscribed = false ∧
    (step s0 Event.close).1.hostMap.handlerSubscribed = false ∧
    step sClosed (Event.interaction "click" (some (1, 2))) = (sClosed, none) :=
  ⟨widget_two_state_machine.1 host0,
   widget_two_state_machine.2.1 sClosed Event.reset
     (widget_two_state_machine.2.2.2.1 s0),
   widget_two_state_machine.2.2.2.1 s0,
   widget_two_state_machine.2.2.2.2 sClosed "click" (some (1, 2))
     (widget_two_state_machine.2.2.2.1 s0)⟩

/-- Claim C9: construction creates the spectral-data attribute as an
empty mapping when the host map lacks it, and from then on every
reachable state, through any sequence of events including faulting ones,
still has the attribute. -/
theorem spectral_attr_exists_from_construction :
    (∀ h, h.spectralData = none →
      (SpectralWidget.init h).hostMap.spectralData = some []) ∧
    (∀ s, Reachable s → s.hostMap.spectralData.isSome) := by
  have hinit : ∀ h, h.spectralData = none →
      (SpectralWidget.init h).hostMap.spectralData = some [] := by
    intro h hn
    simp [SpectralWidget.init, hn]
  have hstep : ∀ s e, s.hostMap.spectralData.isSome →
      (step s e).1.hostMap.spectralData.isSome := by
    intro s e hs
    cases e with
    | interaction typ coords =>
      by_cases hsub : s.hostMap.handlerSubscribed
      · rcases (handle_interaction_pres typ coords s).2 with hh | ⟨sd, hh⟩ <;>
          simp [step, hsub, hh, hs]
      · simp [step, hsub, hs]
    | reset =>
      rcases (reset_pres s).2 with hh | hh <;> simp [step, hh, hs]
    | save => simp [step, (save_pres s).2, hs]
    | chooser sel =>
      cases hf : s.hostMap.fileChooser with
      | none => simp [step, hf, hs]
      | some fid => simp [step, hf, (chooser_pres sel s).2, hs]
    | close =>
      rcases (cleanup_sub_sd s).2 with hh | hh <;> simp [step, hh, hs]
    | selectLayer nm =>
      by_cases hin : nm ∈ s.hostMap.cogLayerDict.map Prod.fst <;>
        simp [step, hin, hs]
  refine ⟨hinit, ?_⟩
  intro s hr
  induction hr with
  | init h =>
    cases hn : h.spectralData with
    | none => simp [hinit h hn]
    | some sd => simp [SpectralWidget.init, hn]
  | step s e _ ih => exact hstep s e ih

/-- Claim C9 witness: the attribute is created empty on the concrete host
map that lacked it, and the constructed state has it. -/
theorem spectral_attr_exists_from_construction_w :
    (SpectralWidget.init host0).hostMap.spectralData = some [] ∧
    (s0.hostMap.spectralData).isSome :=
  ⟨spectral_attr_exists_from_construction.1 host0 rfl,
   spectral_attr_exists_from_construction.2 s0 (Reachable.init host0)⟩

/-- Claim C3: on an active widget state (both controls on the map, the
spectral-control handle set), Close completes without fault, unsubscribes
the click handler, removes both overlay controls from the host map,
clears the accumulated markers and the spectral sample mapping whenever
those attributes exist, and invokes the completion callback exactly when
one is set. -/
theorem cleanup_closes_widget (s : WidgetState)
    (hoc : s.outputControl = Control.output)
    (hsc : s.spectralControl = some Control.spectral)
    (hmo : Control.output ∈ s.hostMap.controls)
    (hms : Control.spectral ∈ s.hostMap.controls)
    (hnd : s.hostMap.controls.Nodup) :
    (cleanup s).2 = none ∧
    (cleanup s).1.hostMap.handlerSubscribed = false ∧
    Control.output ∉ (cleanup s).1.hostMap.controls ∧
    Control.spectral ∉ (cleanup s).1.hostMap.controls ∧
    (s.hostMap.plotMarkerCluster.isSome →
      (cleanup s).1.hostMap.plotMarkerCluster = some [] ∧
      (cleanup s).1.hostMap.plotMarkers = some []) ∧
    (s.hostMap.spectralData.isSome →
      (cleanup s).1.hostMap.spectralData = some []) ∧
    (cleanup s).1.onCloseCalls
      = s.onCloseCalls + (if s.onCloseSet then 1 else 0) := by
  obtain ⟨⟨c1, c2, c3, c4, c5, c6, c7, c8, c9, c10, c11⟩, l, ow, oc, sc, sw, os, onc⟩ := s
  simp only at hoc hsc hmo hms hnd ⊢
  subst hoc; subst hsc
  have hms' : Control.spectral ∈ c1.erase Control.output :=
    (List.mem_erase_of_ne (by decide)).2 hms
  have hno : Control.output ∉ (c1.erase Control.output).erase Control.spectral :=
    fun hmem => hnd.not_mem_erase (List.mem_of_mem_erase hmem)
  have hns : Control.spectral ∉ (c1.erase Control.output).erase Control.spectral :=
    (hnd.erase _).not_mem_erase
  cases ow <;> cases sw <;> cases c4 <;> cases c5 <;> cases os <;>
    simp [cleanup, andThen, cleanup_unsub, cleanup_removeOutput, removeControl,
      cleanup_closeOutputWidget, cleanup_spectralControlPhase,
      cleanup_markersPhase, cleanup_spectralDataPhase, cleanup_finalClear,
      cleanup_onClose, hmo, hms', hno, hns]

/-- Claim C3 witness: Close on the concrete constructed widget removes
both controls, clears markers and samples, and makes no callback call. -/
theorem cleanup_closes_widget_w :
    (cleanup s0).2 = none ∧
    (cleanup s0).1.hostMap.handlerSubscribed = false ∧
    Control.output ∉ (cleanup s0).1.hostMap.controls ∧
    Control.spectral ∉ (cleanup s0).1.hostMap.controls ∧
    (s0.hostMap.plotMarkerCluster.isSome →
      (cleanup s0).1.hostMap.plotMarkerCluster = some [] ∧
      (cleanup s0).1.hostMap.plotMarkers = some []) ∧
    (s0.hostMap.spectralData.isSome →
      (cleanup s0).1.hostMap.spectralData = some []) ∧
    (cleanup s0).1.onCloseCalls
      = s0.onCloseCalls + (if s0.onCloseSet then 1 else 0) :=
  cleanup_closes_widget s0 rfl rfl (by decide) (by decide) (by decide)

/-- Claim C7: after a completed Close on an active state, re-running each
guarded portion of `cleanup` on the resulting state raises nothing and
changes nothing: the unsubscribe is a no-op, the guards on the handles the
first call set to None skip their blocks, and the hasattr-guarded marker
and spectral-data blocks rewrite the already-cleared values.  (The
unguarded `remove_control` on the never-cleared output-control handle is
not covered by the claim and can still fault.) -/
theorem cleanup_second_call_guarded_noop (s : WidgetState)
    (hoc : s.outputControl = Control.output)
    (hsc : s.spectralControl = some Control.spectral)
    (hmo : Control.output ∈ s.hostMap.controls)
    (hms : Control.spectral ∈ s.hostMap.controls)
    (hnd : s.hostMap.controls.Nodup) :
    (cleanup s).2 = none ∧
    cleanup_unsub (cleanup s).1 = (cleanup s).1 ∧
    cleanup_closeOutputWidget (cleanup s).1 = (cleanup s).1 ∧
    cleanup_spectralControlPhase (cleanup s).1 = ((cleanup s).1, none) ∧
    cleanup_markersPhase (cleanup s).1 = (cleanup s).1 ∧
    cleanup_spectralDataPhase (cleanup s).1 = (cleanup s).1 ∧
    cleanup_finalClear (cleanup s).1 = (cleanup s).1 := by
  obtain ⟨⟨c1, c2, c3, c4, c5, c6, c7, c8, c9, c10, c11⟩, l, ow, oc, sc, sw, os, onc⟩ := s
  simp only at hoc hsc hmo hms hnd ⊢
  subst hoc; subst hsc
  have hms' : Control.spectral ∈ c1.erase Control.output :=
    (List.mem_erase_of_ne (by decide)).2 hms
  cases ow <;> cases sw <;> cases c4 <;> cases c5 <;> cases os <;>
    simp [cleanup, andThen, cleanup_unsub, cleanup_removeOutput, removeControl,
      cleanup_closeOutputWidget, cleanup_spectralControlPhase,
      cleanup_markersPhase, cleanup_spectralDataPhase, cleanup_finalClear,
      cleanup_onClose, hmo, hms']

/-- Claim C7 witness: the state left by Close on the concrete widget is a
fixed point of every guarded cleanup phase. -/
theorem cleanup_second_call_guarded_noop_w :
    (cleanup s0).2 = none ∧
    cleanup_unsub (cleanup s0).1 = (cleanup s0).1 ∧
    cleanup_closeOutputWidget (cleanup s0).1 = (cleanup s0).1 ∧
    cleanup_spectralControlPhase (cleanup s0).1 = ((cleanup s0).1, none) ∧
    cleanup_markersPhase (cleanup s0).1 = (cleanup s0).1 ∧
    cleanup_spectralDataPhase (cleanup s0).1 = (cleanup s0).1 ∧
    cleanup_finalClear (cleanup s0).1 = (cleanup s0).1 :=
  cleanup_second_call_guarded_noop s0 rfl rfl (by decide) (by decide) (by decide)

/-- Claim C8 witness: on the state right after Save, a cancelled chooser
changes nothing, while a confirmed selection records the export and
removes the chooser control. -/
theorem chooser_callback_select_or_cancel_w :
    chooser_callback none (save_btn_click s0).1 = ((save_btn_click s0).1, none) ∧
    (chooser_callback (some "out.csv") (save_btn_click s0).1).2 = none ∧
    (chooser_callback (some "out.csv") (save_btn_click s0).1).1.hostMap.csvExports
      = (save_btn_click s0).1.hostMap.csvExports ++ ["out.csv"] ∧
    Control.fileChooser 0 ∉
      (chooser_callback (some "out.csv") (save_btn_click s0).1).1.hostMap.controls :=
  ⟨(chooser_callback_select_or_cancel (save_btn_click s0).1).1,
   ((chooser_callback_select_or_cancel (save_btn_click s0).1).2 "out.csv"
      (Control.fileChooser 0) 0 rfl (by decide) rfl (by decide)).1,
   ((chooser_callback_select_or_cancel (save_btn_click s0).1).2 "out.csv"
      (Control.fileChooser 0) 0 rfl (by decide) rfl (by decide)).2.1,
   ((chooser_callback_select_or_cancel (save_btn_click s0).1).2 "out.csv"
      (Control.fileChooser 0) 0 rfl (by decide) rfl (by decide)).2.2⟩
